import Mathlib

/-!
Verification of the instance-wiring / bus-bridging build script
`mistex_boards/terasic_deca_mistex_cape.py` (MiSTeX-boards).

The script constructs a migen netlist: it declares signals, instantiates two
black boxes (`ddr3`, the DRAM controller, and `sys_top`, the top-level
multiplexing module), wires their ports to shared signals and platform pads,
and appends combinational assignments (`self.comb += ...`).

We embed that netlist shallowly:
* `Expr` is the expression language actually used by the script
  (signal references, bit slices `leds[i]`, platform pads obtained from
  `platform.request`, `~`, `&`, `Cat`, `ClockSignal`, `ResetSignal`);
* `evalE` gives its semantics as LSB-first bit lists
  (migen's `Cat` places its first argument in the least-significant position);
* `ddr3` / `sys_top` transcribe the two `Instance(...)` calls port by port;
* `topComb` transcribes the `self.comb +=` statements in program order.

The defines merge of `main` is modelled by `dictUpdate` (Python `dict.update`
semantics: an existing key keeps its position and gets the new value, a new
key is appended), and the orchestration of `main` by an explicit step
sequence `runMain`.
-/

namespace MiSTeX

/-- Directions of instance ports (`i_`, `o_`, `io_` prefixes in migen). -/
inductive Dir where
  | input | output | inout
deriving DecidableEq, Repr

/-- Expressions of the migen netlist, as used by the script.
`pad r i s` is the sub-signal `s` of `platform.request(r, i)`
(`s = ""` when the resource has no subsignals). -/
inductive Expr where
  | sig : String → Expr
  | bit : String → Nat → Expr
  | pad : String → Nat → String → Expr
  | inv : Expr → Expr
  | band : Expr → Expr → Expr
  | cat : List Expr → Expr
  | clockSignal : String → Expr
  | resetSignal : String → Expr

/-- bus address width, `AW = 26` in the script. -/
def AW : Nat := 26

/-- bus data width, `DW = 64` in the script. -/
def DW : Nat := 64

/-- Widths of the signals declared in `Top.__init__`
(`Signal()` is one bit wide; `Signal(n)` is `n` bits wide). -/
def sigWidth : String → Nat
  | "leds"                 => 8
  | "clk50"                => 1
  | "avalon_clock"         => 1
  | "avalon_address"       => AW
  | "avalon_byteenable"    => DW / 8
  | "avalon_read"          => 1
  | "avalon_readdata"      => DW
  | "avalon_burstcount"    => 8
  | "avalon_write"         => 1
  | "avalon_writedata"     => DW
  | "avalon_ready"         => 1
  | "avalon_readdatavalid" => 1
  | "avalon_burstbegin"    => 1
  | "avalon_waitrequest"   => 1
  | "afi_half_clk"         => 1
  | "afi_reset_export_n"   => 1
  | "afi_reset_n"          => 1
  | _                      => 1

/-- A valuation of the netlist's free inputs: the declared signals
(bit by bit), the platform pads (whole bit vectors, widths fixed by the
board descriptor which is external to this repository), and the clock and
reset wires of the clock domains. -/
structure Env where
  sigBit  : String → Nat → Bool
  padBits : String → Nat → String → List Bool
  clk     : String → Bool
  rst     : String → Bool

mutual

/-- Semantics of netlist expressions as LSB-first bit lists. -/
def evalE (env : Env) : Expr → List Bool
  | .sig n          => (List.range (sigWidth n)).map (env.sigBit n)
  | .bit n i        => [env.sigBit n i]
  | .pad r i s      => env.padBits r i s
  | .inv e          => (evalE env e).map (fun b => !b)
  | .band a b       => List.zipWith (fun x y => x && y) (evalE env a) (evalE env b)
  | .cat es         => evalCat env es
  | .clockSignal d  => [env.clk d]
  | .resetSignal d  => [env.rst d]

/-- Migen `Cat` concatenates LSB-first: the first element lands in the
least-significant position. -/
def evalCat (env : Env) : List Expr → List Bool
  | []      => []
  | e :: es => evalE env e ++ evalCat env es

end

/-- A port of a black-box `Instance`: direction, name, bound expression. -/
structure Port where
  dir  : Dir
  name : String
  expr : Expr

/-- An opaque black-box instance: type name, static parameters, port list. -/
structure Inst where
  name   : String
  params : List (String × Nat)
  ports  : List Port

/-- The expression bound to a named port of an instance. -/
def portExpr (i : Inst) (p : String) : Option Expr :=
  (i.ports.find? (fun q => q.name == p)).map Port.expr

/-- Bit-list value carried by a named port (empty if the port is absent). -/
def evalPort (env : Env) (i : Inst) (p : String) : List Bool :=
  match portExpr i p with
  | some e => evalE env e
  | none   => []

/-- The `ddr3` DRAM-controller instance, transcribed port by port from
`Instance("ddr3", ...)` in `Top.__init__`. -/
def ddr3 : Inst :=
  { name := "ddr3"
    params := []
    ports := [
      ⟨.input,  "pll_ref_clk",        .sig "clk50"⟩,
      ⟨.input,  "global_reset_n",     .inv (.resetSignal "sys")⟩,
      ⟨.input,  "soft_reset_n",       .inv (.resetSignal "sys")⟩,
      ⟨.output, "afi_clk",            .sig "avalon_clock"⟩,
      ⟨.output, "afi_half_clk",       .sig "afi_half_clk"⟩,
      ⟨.output, "afi_reset_n",        .sig "afi_reset_export_n"⟩,
      ⟨.output, "afi_reset_export_n", .sig "afi_reset_n"⟩,
      ⟨.output, "mem_a",              .pad "ddram" 0 "a"⟩,
      ⟨.output, "mem_ba",             .pad "ddram" 0 "ba"⟩,
      ⟨.inout,  "mem_ck",             .pad "ddram" 0 "clk_p"⟩,
      ⟨.inout,  "mem_ck_n",           .pad "ddram" 0 "clk_n"⟩,
      ⟨.output, "mem_cke",            .pad "ddram" 0 "cke"⟩,
      ⟨.output, "mem_cs_n",           .pad "ddram" 0 "cs_n"⟩,
      ⟨.output, "mem_dm",             .pad "ddram" 0 "dm"⟩,
      ⟨.output, "mem_ras_n",          .pad "ddram" 0 "ras_n"⟩,
      ⟨.output, "mem_cas_n",          .pad "ddram" 0 "cas_n"⟩,
      ⟨.output, "mem_we_n",           .pad "ddram" 0 "we_n"⟩,
      ⟨.output, "mem_reset_n",        .pad "ddram" 0 "reset_n"⟩,
      ⟨.inout,  "mem_dq",             .pad "ddram" 0 "dq"⟩,
      ⟨.inout,  "mem_dqs",            .pad "ddram" 0 "dqs_p"⟩,
      ⟨.inout,  "mem_dqs_n",          .pad "ddram" 0 "dqs_n"⟩,
      ⟨.output, "mem_odt",            .pad "ddram" 0 "odt"⟩,
      ⟨.output, "avl_ready",          .sig "avalon_ready"⟩,
      ⟨.input,  "avl_burstbegin",     .sig "avalon_burstbegin"⟩,
      ⟨.input,  "avl_addr",           .sig "avalon_address"⟩,
      ⟨.output, "avl_rdata_valid",    .sig "avalon_readdatavalid"⟩,
      ⟨.output, "avl_rdata",          .sig "avalon_readdata"⟩,
      ⟨.input,  "avl_wdata",          .sig "avalon_writedata"⟩,
      ⟨.input,  "avl_be",             .sig "avalon_byteenable"⟩,
      ⟨.input,  "avl_read_req",       .sig "avalon_read"⟩,
      ⟨.input,  "avl_write_req",      .sig "avalon_write"⟩,
      ⟨.input,  "avl_size",           .sig "avalon_burstcount"⟩,
      ⟨.output, "local_init_done",    .bit "leds" 5⟩,
      ⟨.output, "local_cal_success",  .bit "leds" 6⟩,
      ⟨.output, "local_cal_fail",     .bit "leds" 7⟩,
      ⟨.output, "pll_locked",         .bit "leds" 4⟩] }

/-- The `sys_top` top-level-module instance, transcribed port by port from
`Instance("sys_top", ...)` in `Top.__init__`. -/
def sys_top : Inst :=
  { name := "sys_top"
    params := [("DW", DW), ("AW", AW)]
    ports := [
      ⟨.input,  "CLK_50",             .sig "clk50"⟩,
      ⟨.output, "HDMI_I2C_SCL",       .pad "hdmi_i2c" 0 "scl"⟩,
      ⟨.inout,  "HDMI_I2C_SDA",       .pad "hdmi_i2c" 0 "sda"⟩,
      ⟨.output, "HDMI_MCLK",          .pad "hdmi_i2s" 0 "mclk"⟩,
      ⟨.output, "HDMI_SCLK",          .pad "hdmi_i2s" 0 "sclk"⟩,
      ⟨.output, "HDMI_LRCLK",         .pad "hdmi_i2s" 0 "lrclk"⟩,
      ⟨.output, "HDMI_I2S",           .pad "hdmi_i2s" 0 "i2s"⟩,
      ⟨.output, "HDMI_TX_D",
        .cat [.pad "hdmi" 0 "r", .pad "hdmi" 0 "g", .pad "hdmi" 0 "b"]⟩,
      ⟨.output, "HDMI_TX_CLK",        .pad "hdmi" 0 "clk"⟩,
      ⟨.output, "HDMI_TX_DE",         .pad "hdmi" 0 "de"⟩,
      ⟨.output, "HDMI_TX_HS",         .pad "hdmi" 0 "hsync"⟩,
      ⟨.output, "HDMI_TX_VS",         .pad "hdmi" 0 "vsync"⟩,
      ⟨.input,  "HDMI_TX_INT",        .pad "hdmi" 0 "int"⟩,
      ⟨.output, "SDRAM_A",            .pad "sdram" 0 "a"⟩,
      ⟨.inout,  "SDRAM_DQ",           .pad "sdram" 0 "dq"⟩,
      ⟨.output, "SDRAM_nWE",          .pad "sdram" 0 "we_n"⟩,
      ⟨.output, "SDRAM_nCAS",         .pad "sdram" 0 "cas_n"⟩,
      ⟨.output, "SDRAM_nRAS",         .pad "sdram" 0 "ras_n"⟩,
      ⟨.output, "SDRAM_nCS",          .pad "sdram" 0 "cs_n"⟩,
      ⟨.output, "SDRAM_BA",           .pad "sdram" 0 "ba"⟩,
      ⟨.output, "SDRAM_CLK",          .pad "sdram_clock" 0 ""⟩,
      ⟨.output, "LED_USER",           .bit "leds" 2⟩,
      ⟨.output, "LED_HDD",            .bit "leds" 1⟩,
      ⟨.output, "LED_POWER",          .bit "leds" 0⟩,
      ⟨.input,  "BTN_OSD",            .pad "user_btn" 0 ""⟩,
      ⟨.input,  "BTN_RESET",          .pad "user_btn" 1 ""⟩,
      ⟨.output, "SD_SPI_CS",          .pad "sdcard" 0 "sel"⟩,
      ⟨.input,  "SD_SPI_MISO",        .pad "sdcard" 0 "data0"⟩,
      ⟨.output, "SD_SPI_CLK",         .pad "sdcard" 0 "clk"⟩,
      ⟨.output, "SD_SPI_MOSI",        .pad "sdcard" 0 "cmd"⟩,
      ⟨.input,  "HPS_SPI_MOSI",       .pad "hps_spi" 0 "mosi"⟩,
      ⟨.output, "HPS_SPI_MISO",       .pad "hps_spi" 0 "miso"⟩,
      ⟨.input,  "HPS_SPI_CLK",        .pad "hps_spi" 0 "clk"⟩,
      ⟨.input,  "HPS_SPI_CS",         .pad "hps_spi" 0 "cs_n"⟩,
      ⟨.input,  "HPS_FPGA_ENABLE",    .pad "hps_control" 0 "fpga_enable"⟩,
      ⟨.input,  "HPS_OSD_ENABLE",     .pad "hps_control" 0 "osd_enable"⟩,
      ⟨.input,  "HPS_IO_ENABLE",      .pad "hps_control" 0 "io_enable"⟩,
      ⟨.input,  "HPS_CORE_RESET",     .pad "hps_control" 0 "core_reset"⟩,
      ⟨.input,  "ddr3_clk_i",         .sig "avalon_clock"⟩,
      ⟨.output, "ddr3_address_o",     .sig "avalon_address"⟩,
      ⟨.output, "ddr3_byteenable_o",  .sig "avalon_byteenable"⟩,
      ⟨.output, "ddr3_read_o",        .sig "avalon_read"⟩,
      ⟨.input,  "ddr3_readdata_i",    .sig "avalon_readdata"⟩,
      ⟨.output, "ddr3_burstcount_o",  .sig "avalon_burstcount"⟩,
      ⟨.output, "ddr3_write_o",       .sig "avalon_write"⟩,
      ⟨.output, "ddr3_writedata_o",   .sig "avalon_writedata"⟩,
      ⟨.input,  "ddr3_waitrequest_i", .sig "avalon_waitrequest"⟩,
      ⟨.input,  "ddr3_readdatavalid_i", .sig "avalon_readdatavalid"⟩] }

/-- The combinational assignments of `Top.__init__`, in program order:
`Cat(user_led pins).eq(~leds)`, `clk50.eq(platform.request("clk50"))`,
then after the `ddr3` instance the bus-bridge block
(`avalon_burstbegin.eq(avalon_write & avalon_read)`,
`avalon_waitrequest.eq(~avalon_ready)`,
`ClockSignal("avalon").eq(avalon_clock)`,
`ClockSignal().eq(ClockSignal("avalon"))`; `ClockSignal()` with no argument
is the `"sys"` domain clock). -/
def topComb : List (Expr × Expr) :=
  [ (.cat ((List.range 8).map (fun l => .pad "user_led" l "")), .inv (.sig "leds")),
    (.sig "clk50", .pad "clk50" 0 ""),
    (.sig "avalon_burstbegin", .band (.sig "avalon_write") (.sig "avalon_read")),
    (.sig "avalon_waitrequest", .inv (.sig "avalon_ready")),
    (.clockSignal "avalon", .sig "avalon_clock"),
    (.clockSignal "sys", .clockSignal "avalon") ]

/-- An environment satisfies the combinational assignments when every
`lhs.eq(rhs)` pair evaluates to equal bit lists. -/
def combSat (env : Env) : Prop :=
  ∀ p ∈ topComb, evalE env p.1 = evalE env p.2

/-- Unpacking of `combSat` into the six concrete assignments of `topComb`. -/
theorem combSat_spec (env : Env) (h : combSat env) :
    evalE env (.cat ((List.range 8).map (fun l => .pad "user_led" l ""))) =
        evalE env (.inv (.sig "leds"))
    ∧ evalE env (.sig "clk50") = evalE env (.pad "clk50" 0 "")
    ∧ evalE env (.sig "avalon_burstbegin") =
        evalE env (.band (.sig "avalon_write") (.sig "avalon_read"))
    ∧ evalE env (.sig "avalon_waitrequest") = evalE env (.inv (.sig "avalon_ready"))
    ∧ evalE env (.clockSignal "avalon") = evalE env (.sig "avalon_clock")
    ∧ evalE env (.clockSignal "sys") = evalE env (.clockSignal "avalon") :=
  ⟨h _ (List.Mem.head _),
   h _ (List.Mem.tail _ (List.Mem.head _)),
   h _ (List.Mem.tail _ (List.Mem.tail _ (List.Mem.head _))),
   h _ (List.Mem.tail _ (List.Mem.tail _ (List.Mem.tail _ (List.Mem.head _)))),
   h _ (List.Mem.tail _ (List.Mem.tail _ (List.Mem.tail _ (List.Mem.tail _
       (List.Mem.head _))))),
   h _ (List.Mem.tail _ (List.Mem.tail _ (List.Mem.tail _ (List.Mem.tail _
       (List.Mem.tail _ (List.Mem.head _))))))⟩

/-- A concrete valuation satisfying `topComb`: every declared signal is low
except `avalon_waitrequest` (which must equal `not avalon_ready`), every
`user_led` pad shows the complement of the corresponding low `leds` bit,
and all other pads are one low bit. -/
def env0 : Env where
  sigBit  := fun n _ => n == "avalon_waitrequest"
  padBits := fun r _ _ => if r == "user_led" then [true] else [false]
  clk     := fun _ => false
  rst     := fun _ => false

theorem env0_combSat : combSat env0 := by
  unfold combSat
  decide

/-- C1: in every build, the controller's `avl_burstbegin` input carries the
bitwise AND of the values on the top-level instance's `ddr3_write_o` and
`ddr3_read_o` ports (the bus bridge drives `avalon_burstbegin` with
`avalon_write & avalon_read`, and those shared signals are bound to the
named ports). -/
theorem C1_burstbegin_is_write_and_read (env : Env) (h : combSat env) :
    evalPort env ddr3 "avl_burstbegin" =
      List.zipWith (fun x y => x && y)
        (evalPort env sys_top "ddr3_write_o")
        (evalPort env sys_top "ddr3_read_o") := by
  have hb := (combSat_spec env h).2.2.1
  have e1 : evalPort env ddr3 "avl_burstbegin" =
      evalE env (.sig "avalon_burstbegin") := rfl
  have e2 : evalPort env sys_top "ddr3_write_o" = evalE env (.sig "avalon_write") := rfl
  have e3 : evalPort env sys_top "ddr3_read_o" = evalE env (.sig "avalon_read") := rfl
  rw [e1, e2, e3]
  exact hb

/-- Witness for C1 at the concrete valuation `env0`. -/
theorem C1_witness :
    evalPort env0 ddr3 "avl_burstbegin" =
      List.zipWith (fun x y => x && y)
        (evalPort env0 sys_top "ddr3_write_o")
        (evalPort env0 sys_top "ddr3_read_o") :=
  C1_burstbegin_is_write_and_read env0 env0_combSat

/-- C2: in every build, the `"sys"` clock-domain clock equals the value on
the controller's generated output clock port `afi_clk`
(`ClockSignal("avalon")` is driven by `avalon_clock`, which is bound to
`o_afi_clk`, and `ClockSignal()` — the `"sys"` clock — is driven by
`ClockSignal("avalon")`), so everything homed to the primary domain is
synchronous to the controller-generated clock. -/
theorem C2_sys_clock_is_afi_clk (env : Env) (h : combSat env) :
    evalE env (.clockSignal "sys") = evalPort env ddr3 "afi_clk" := by
  have h5 := (combSat_spec env h).2.2.2.2.1
  have h6 := (combSat_spec env h).2.2.2.2.2
  have e : evalPort env ddr3 "afi_clk" = evalE env (.sig "avalon_clock") := rfl
  rw [e, h6, h5]

/-- Witness for C2 at the concrete valuation `env0`. -/
theorem C2_witness :
    evalE env0 (.clockSignal "sys") = evalPort env0 ddr3 "afi_clk" :=
  C2_sys_clock_is_afi_clk env0 env0_combSat

/-- C3: in every build, the value fed to the top-level module's
`ddr3_waitrequest_i` port is the bitwise negation of the controller's
`avl_ready` output (`avalon_waitrequest` is driven by `~avalon_ready`). -/
theorem C3_waitrequest_is_not_ready (env : Env) (h : combSat env) :
    evalPort env sys_top "ddr3_waitrequest_i" =
      (evalPort env ddr3 "avl_ready").map (fun b => !b) := by
  have h4 := (combSat_spec env h).2.2.2.1
  have e1 : evalPort env sys_top "ddr3_waitrequest_i" =
      evalE env (.sig "avalon_waitrequest") := rfl
  have e2 : evalPort env ddr3 "avl_ready" = evalE env (.sig "avalon_ready") := rfl
  rw [e1, e2]
  exact h4

/-- Witness for C3 at the concrete valuation `env0`. -/
theorem C3_witness :
    evalPort env0 sys_top "ddr3_waitrequest_i" =
      (evalPort env0 ddr3 "avl_ready").map (fun b => !b) :=
  C3_waitrequest_is_not_ready env0 env0_combSat

/-- Holds (as `true`) iff the named port of the instance is bound to the shared signal
`s` (a plain `.sig` reference, not a slice or expression). -/
def boundToSig (i : Inst) (p : String) (s : String) : Bool :=
  match portExpr i p with
  | some (.sig n) => n == s
  | _ => false

/-- Number of port entries of the instance carrying the given name. -/
def bindingCount (i : Inst) (p : String) : Nat :=
  (i.ports.filter (fun q => q.name == p)).length

/-- The eight bus signal pairs of the bridge: controller port (`avl_*`),
top-level port (`ddr3_*`), shared signal, and the shared signal's width. -/
def busPairs : List (String × String × String × Nat) :=
  [ ("avl_addr",        "ddr3_address_o",       "avalon_address",       26),
    ("avl_be",          "ddr3_byteenable_o",    "avalon_byteenable",     8),
    ("avl_read_req",    "ddr3_read_o",          "avalon_read",           1),
    ("avl_rdata",       "ddr3_readdata_i",      "avalon_readdata",      64),
    ("avl_size",        "ddr3_burstcount_o",    "avalon_burstcount",     8),
    ("avl_write_req",   "ddr3_write_o",         "avalon_write",          1),
    ("avl_wdata",       "ddr3_writedata_o",     "avalon_writedata",     64),
    ("avl_rdata_valid", "ddr3_readdatavalid_i", "avalon_readdatavalid",  1) ]

/-- C4: the bridge creates exactly one binding per bus signal pair: for each
pair, the `avl_*` controller port and the `ddr3_*` top-level port are both
bound to the same shared signal, each port name occurs exactly once on its
instance, and the shared signal has the stated width (address 26, data 64,
byteenable 8, burstcount 8, strobes 1). -/
theorem C4_one_binding_per_bus_pair :
    ∀ q ∈ busPairs,
      boundToSig ddr3 q.1 q.2.2.1 = true
      ∧ boundToSig sys_top q.2.1 q.2.2.1 = true
      ∧ bindingCount ddr3 q.1 = 1
      ∧ bindingCount sys_top q.2.1 = 1
      ∧ sigWidth q.2.2.1 = q.2.2.2 := by
  decide

/-- Witness for C4 at the address pair. -/
theorem C4_witness :
    boundToSig ddr3 "avl_addr" "avalon_address" = true
    ∧ boundToSig sys_top "ddr3_address_o" "avalon_address" = true
    ∧ bindingCount ddr3 "avl_addr" = 1
    ∧ bindingCount sys_top "ddr3_address_o" = 1
    ∧ sigWidth "avalon_address" = 26 :=
  C4_one_binding_per_bus_pair ("avl_addr", "ddr3_address_o", "avalon_address", 26)
    (List.Mem.head _)

/-- Value of an LSB-first bit list as a natural number. -/
def bitsToNat : List Bool → Nat
  | []      => 0
  | b :: bs => (cond b 1 0) + 2 * bitsToNat bs

theorem bitsToNat_append (a b : List Bool) :
    bitsToNat (a ++ b) = bitsToNat a + 2 ^ a.length * bitsToNat b := by
  induction a with
  | nil => simp [bitsToNat]
  | cons x xs ih =>
      rw [List.cons_append, bitsToNat, bitsToNat, ih, List.length_cons, pow_succ]
      ring

/-- C8: the top-level port `HDMI_TX_D` is bound to `Cat(hdmi.r, hdmi.g,
hdmi.b)`: its bit list is the concatenation of the three channels with `r`
in the least-significant position, its width is the sum of the three
channel widths, and its numeric value places `g` and `b` at offsets given
by the widths of the preceding channels. -/
theorem C8_hdmi_tx_d_concatenation (env : Env) :
    evalPort env sys_top "HDMI_TX_D" =
      env.padBits "hdmi" 0 "r" ++ env.padBits "hdmi" 0 "g" ++ env.padBits "hdmi" 0 "b"
    ∧ (evalPort env sys_top "HDMI_TX_D").length =
      (env.padBits "hdmi" 0 "r").length + (env.padBits "hdmi" 0 "g").length
        + (env.padBits "hdmi" 0 "b").length
    ∧ bitsToNat (evalPort env sys_top "HDMI_TX_D") =
      bitsToNat (env.padBits "hdmi" 0 "r")
        + 2 ^ (env.padBits "hdmi" 0 "r").length * bitsToNat (env.padBits "hdmi" 0 "g")
        + 2 ^ ((env.padBits "hdmi" 0 "r").length + (env.padBits "hdmi" 0 "g").length)
            * bitsToNat (env.padBits "hdmi" 0 "b") := by
  have e : evalPort env sys_top "HDMI_TX_D" =
      env.padBits "hdmi" 0 "r" ++ (env.padBits "hdmi" 0 "g" ++
        (env.padBits "hdmi" 0 "b" ++ [])) := rfl
  refine ⟨?_, ?_, ?_⟩
  · rw [e]
    simp [List.append_assoc]
  · rw [e]
    simp [List.length_append, Nat.add_assoc]
  · rw [e]
    simp only [List.append_nil, bitsToNat_append, List.length_append]
    ring

/-- Holds (as `true`) iff the expression is the bit slice `leds[i]`-style reference
`n[i]`. -/
def isBitOf (e : Expr) (n : String) (i : Nat) : Bool :=
  match e with
  | .bit m j => m == n && j == i
  | _ => false

/-- Holds (as `true`) iff the named port of the instance is bound to bit `i` of
signal `n`. -/
def boundToBit (inst : Inst) (p : String) (n : String) (i : Nat) : Bool :=
  match portExpr inst p with
  | some e => isBitOf e n i
  | none   => false

/-- Holds (as `true`) iff some port of the instance is bound to bit `i` of signal `n`
(for an output port this drives that bit). -/
def drivesBit (inst : Inst) (n : String) (i : Nat) : Bool :=
  inst.ports.any (fun q => isBitOf q.expr n i)

/-- C9: the eight `user_led` pins are driven active-low: each pin `l` shows
the complement of bit `l` of the internal `leds` signal; bits 0–2 are bound
to the top-level module's status outputs, bits 4–7 to the DRAM controller's
PLL/calibration outputs, bit 3 is bound nowhere (neither instance port nor
combinational left-hand side), so with the undriven bit at its reset value
`false` the pin is constantly high. -/
theorem C9_user_leds_active_low (env : Env) (h : combSat env)
    (h1 : ∀ l, l < 8 → (env.padBits "user_led" l "").length = 1) :
    (∀ l, l < 8 → env.padBits "user_led" l "" = [!(env.sigBit "leds" l)])
    ∧ boundToBit sys_top "LED_POWER" "leds" 0 = true
    ∧ boundToBit sys_top "LED_HDD" "leds" 1 = true
    ∧ boundToBit sys_top "LED_USER" "leds" 2 = true
    ∧ boundToBit ddr3 "pll_locked" "leds" 4 = true
    ∧ boundToBit ddr3 "local_init_done" "leds" 5 = true
    ∧ boundToBit ddr3 "local_cal_success" "leds" 6 = true
    ∧ boundToBit ddr3 "local_cal_fail" "leds" 7 = true
    ∧ drivesBit ddr3 "leds" 3 = false
    ∧ drivesBit sys_top "leds" 3 = false
    ∧ topComb.any (fun p => isBitOf p.1 "leds" 3) = false
    ∧ (env.sigBit "leds" 3 = false → env.padBits "user_led" 3 "" = [true]) := by
  have h0 : env.padBits "user_led" 0 "" ++ (env.padBits "user_led" 1 "" ++
      (env.padBits "user_led" 2 "" ++ (env.padBits "user_led" 3 "" ++
      (env.padBits "user_led" 4 "" ++ (env.padBits "user_led" 5 "" ++
      (env.padBits "user_led" 6 "" ++ (env.padBits "user_led" 7 "" ++ []))))))) =
      [!(env.sigBit "leds" 0), !(env.sigBit "leds" 1), !(env.sigBit "leds" 2),
       !(env.sigBit "leds" 3), !(env.sigBit "leds" 4), !(env.sigBit "leds" 5),
       !(env.sigBit "leds" 6), !(env.sigBit "leds" 7)] := (combSat_spec env h).1
  obtain ⟨b0, e0⟩ := List.length_eq_one.mp (h1 0 (by norm_num))
  obtain ⟨b1, e1⟩ := List.length_eq_one.mp (h1 1 (by norm_num))
  obtain ⟨b2, e2⟩ := List.length_eq_one.mp (h1 2 (by norm_num))
  obtain ⟨b3, e3⟩ := List.length_eq_one.mp (h1 3 (by norm_num))
  obtain ⟨b4, e4⟩ := List.length_eq_one.mp (h1 4 (by norm_num))
  obtain ⟨b5, e5⟩ := List.length_eq_one.mp (h1 5 (by norm_num))
  obtain ⟨b6, e6⟩ := List.length_eq_one.mp (h1 6 (by norm_num))
  obtain ⟨b7, e7⟩ := List.length_eq_one.mp (h1 7 (by norm_num))
  rw [e0, e1, e2, e3, e4, e5, e6, e7] at h0
  simp only [List.cons_append, List.nil_append, List.cons.injEq, and_true] at h0
  obtain ⟨q0, q1, q2, q3, q4, q5, q6, q7⟩ := h0
  have hpins : ∀ l, l < 8 → env.padBits "user_led" l "" = [!(env.sigBit "leds" l)] := by
    intro l hl
    interval_cases l
    · rw [e0, q0]
    · rw [e1, q1]
    · rw [e2, q2]
    · rw [e3, q3]
    · rw [e4, q4]
    · rw [e5, q5]
    · rw [e6, q6]
    · rw [e7, q7]
  refine ⟨hpins, rfl, rfl, rfl, rfl, rfl, rfl, rfl, by decide, by decide, by decide, ?_⟩
  intro hz
  have := hpins 3 (by norm_num)
  rw [hz] at this
  simpa using this

/-- Witness for C9 at the concrete valuation `env0`: the undriven LED bit 3
leaves its active-low pin constantly high. -/
theorem C9_witness : env0.padBits "user_led" 3 "" = [true] :=
  (C9_user_leds_active_low env0 env0_combSat (by decide)).2.2.2.2.2.2.2.2.2.2.2 rfl

/-- The `self.debug` flag, set unconditionally to `False` in `Top.__init__`. -/
def debugFlag : Bool := false

/-- The netlist produced by `Top.__init__`: the combinational assignments,
the two black-box specials, and — only under the debug flag — the
`spibone` SPIBone submodule (whose bus is added as a Wishbone master) and
the `analyzer` LiteScope submodule. -/
structure Design where
  comb       : List (Expr × Expr)
  specials   : List Inst
  submodules : List String
  wbMasters  : List String

/-- The construction `Top.__init__` as a function of the debug flag. -/
def mkTop (debug : Bool) : Design :=
  { comb       := topComb
    specials   := [ddr3, sys_top]
    submodules := if debug then ["spibone", "analyzer"] else []
    wbMasters  := if debug then ["spibone.bus"] else [] }

/-- The design as actually constructed, with `self.debug = False`. -/
def top : Design := mkTop debugFlag

/-- C10: the debug instrumentation branch is unreachable — the flag is
hard-coded `False`, so the produced design has no SPIBone bus master and no
logic-analyzer submodule. -/
theorem C10_no_debug_instrumentation :
    debugFlag = false
    ∧ top = mkTop false
    ∧ "spibone" ∉ top.submodules
    ∧ "analyzer" ∉ top.submodules
    ∧ top.wbMasters = []
    ∧ top.submodules = [] := by
  refine ⟨rfl, rfl, ?_, ?_, rfl, rfl⟩ <;> simp [top, mkTop, debugFlag]

/-! The defines merge of `main`:
`defines = mistex_yaml.get('defines', {})` followed by
`defines.update({...})`.  Python `dict` semantics: a key already present
keeps its position and receives the new value; a new key is appended in
update order.  `dictInsert`/`dictUpdate` model exactly that on ordered
association lists. -/

/-- Insert into a Python-style ordered dict: an existing key keeps its
position and gets the new value, a fresh key is appended at the end. -/
def dictInsert {α : Type} (d : List (String × α)) (k : String) (v : α) :
    List (String × α) :=
  match d with
  | [] => [(k, v)]
  | (k', v') :: rest =>
      if k' = k then (k, v) :: rest else (k', v') :: dictInsert rest k v

/-- Python `base.update(upd)` for ordered dicts. -/
def dictUpdate {α : Type} (base upd : List (String × α)) : List (String × α) :=
  match upd with
  | [] => base
  | (k, v) :: rest => dictUpdate (dictInsert base k v) rest

/-- The keys of an ordered dict, in order. -/
def keysOf {α : Type} (d : List (String × α)) : List String := d.map Prod.fst

/-- First-match lookup in an ordered dict. -/
def dlookup {α : Type} (k : String) : List (String × α) → Option α
  | [] => none
  | (k', v) :: rest => if k' = k then some v else dlookup k rest

/-- The hard-coded feature defines of `main` (the entries passed to
`defines.update({...})`), in source order. -/
def staticDefines : List (String × Nat) :=
  [ ("ALTERA", 1), ("OSD_HEADER", 1), ("CRG_AUDIO_CLK", 1),
    ("HARDWARE_HDMI_INIT", 1), ("NO_SCANDOUBLER", 1), ("DISABLE_VGA", 1),
    ("SKIP_SHADOWMASK", 1), ("SKIP_IIR_FILTER", 1),
    ("MISTER_DISABLE_YC", 1), ("MISTER_DISABLE_ALSA", 1) ]

/-- The emitted define map: the manifest's `defines` updated with the
hard-coded ones. -/
def mergedDefines (manifestDefines : List (String × Nat)) : List (String × Nat) :=
  dictUpdate manifestDefines staticDefines

theorem keysOf_dictInsert {α : Type} (d : List (String × α)) (k : String) (v : α) :
    keysOf (dictInsert d k v) =
      if k ∈ keysOf d then keysOf d else keysOf d ++ [k] := by
  induction d with
  | nil => simp [dictInsert, keysOf]
  | cons p rest ih =>
      obtain ⟨k', v'⟩ := p
      by_cases hk : k' = k
      · subst hk
        simp [dictInsert, keysOf]
      · simp only [dictInsert, if_neg hk, keysOf, List.map_cons] at ih ⊢
        rw [ih]
        by_cases hm : k ∈ keysOf rest
        · simp [keysOf] at hm
          simp [hm]
        · simp [keysOf] at hm
          simp [hm, Ne.symm hk]

theorem dlookup_dictInsert_self {α : Type} (d : List (String × α)) (k : String) (v : α) :
    dlookup k (dictInsert d k v) = some v := by
  induction d with
  | nil => simp [dictInsert, dlookup]
  | cons p rest ih =>
      obtain ⟨k', v'⟩ := p
      by_cases hk : k' = k
      · subst hk
        simp [dictInsert, dlookup]
      · simp [dictInsert, dlookup, hk, ih]

theorem dlookup_dictInsert_ne {α : Type} (d : List (String × α)) (k k' : String)
    (v : α) (h : k' ≠ k) : dlookup k' (dictInsert d k v) = dlookup k' d := by
  induction d with
  | nil => simp [dictInsert, dlookup, Ne.symm h]
  | cons p rest ih =>
      obtain ⟨k0, v0⟩ := p
      by_cases hk : k0 = k
      · subst hk
        simp [dictInsert, dlookup, Ne.symm h]
      · simp only [dictInsert, if_neg hk, dlookup]
        by_cases h0 : k0 = k'
        · simp [h0]
        · simp [h0, ih]

theorem dlookup_eq_none_of_not_mem {α : Type} (d : List (String × α)) (k : String)
    (h : k ∉ keysOf d) : dlookup k d = none := by
  induction d with
  | nil => simp [dlookup]
  | cons p rest ih =>
      obtain ⟨k', v'⟩ := p
      simp only [keysOf, List.map_cons, List.mem_cons, not_or] at h
      simp [dlookup, Ne.symm h.1, ih (by simpa [keysOf] using h.2)]

theorem keysOf_dictUpdate {α : Type} (upd : List (String × α)) :
    ∀ base : List (String × α), (keysOf upd).Nodup →
      keysOf (dictUpdate base upd) =
        keysOf base ++ (keysOf upd).filter (fun k => decide (k ∉ keysOf base)) := by
  induction upd with
  | nil =>
      intro base _
      simp [dictUpdate, keysOf]
  | cons p rest ih =>
      obtain ⟨k, v⟩ := p
      intro base hu
      simp only [keysOf, List.map_cons, List.nodup_cons] at hu
      have hu' : (keysOf rest).Nodup := hu.2
      have hkrest : k ∉ keysOf rest := hu.1
      rw [dictUpdate, ih (dictInsert base k v) hu', keysOf_dictInsert]
      have hk1 : keysOf ((k, v) :: rest) = k :: keysOf rest := rfl
      by_cases hm : k ∈ keysOf base
      · rw [if_pos hm, hk1]
        simp [List.filter_cons, hm]
      · rw [if_neg hm]
        have hcong : (keysOf rest).filter
              (fun x => decide (x ∉ keysOf base ++ [k])) =
            (keysOf rest).filter (fun x => decide (x ∉ keysOf base)) := by
          apply List.filter_congr
          intro x hx
          have hxk : x ≠ k := fun hh => hkrest (hh ▸ hx)
          rw [decide_eq_decide]
          simp [List.mem_append, hxk]
        rw [hcong, hk1]
        simp [List.filter_cons, hm, List.append_assoc]

theorem nodup_keysOf_dictUpdate {α : Type} (base upd : List (String × α))
    (hb : (keysOf base).Nodup) (hu : (keysOf upd).Nodup) :
    (keysOf (dictUpdate base upd)).Nodup := by
  rw [keysOf_dictUpdate upd base hu]
  refine List.Nodup.append hb (hu.filter _) ?_
  intro a ha hmem
  have hpa := List.of_mem_filter hmem
  simp only [decide_eq_true_eq] at hpa
  exact hpa ha

theorem dlookup_dictUpdate {α : Type} (upd : List (String × α)) :
    ∀ base : List (String × α), (keysOf upd).Nodup → ∀ k : String,
      (∀ v, dlookup k upd = some v → dlookup k (dictUpdate base upd) = some v)
      ∧ (dlookup k upd = none → dlookup k (dictUpdate base upd) = dlookup k base) := by
  induction upd with
  | nil =>
      intro base _ k
      exact ⟨fun v hv => by simp [dlookup] at hv, fun _ => rfl⟩
  | cons p rest ih =>
      obtain ⟨k0, v0⟩ := p
      intro base hu k
      simp only [keysOf, List.map_cons, List.nodup_cons] at hu
      have hu' : (keysOf rest).Nodup := hu.2
      have hk0 : k0 ∉ keysOf rest := hu.1
      constructor
      · intro v hv
        rw [dlookup] at hv
        rw [dictUpdate]
        by_cases h : k0 = k
        · subst h
          rw [if_pos rfl] at hv
          have hv' := Option.some.inj hv
          subst hv'
          have hn : dlookup k0 rest = none := dlookup_eq_none_of_not_mem rest k0 hk0
          rw [(ih (dictInsert base k0 v0) hu' k0).2 hn, dlookup_dictInsert_self]
        · rw [if_neg h] at hv
          exact (ih (dictInsert base k0 v0) hu' k).1 v hv
      · intro hv
        rw [dlookup] at hv
        by_cases h : k0 = k
        · rw [if_pos h] at hv
          cases hv
        · rw [if_neg h] at hv
          rw [dictUpdate, (ih (dictInsert base k0 v0) hu' k).2 hv,
            dlookup_dictInsert_ne base k0 k v0 (Ne.symm h)]

/-- C5: the define merge (Python `dict.update`, which underlies
`defines.update({...})` in `main`) is order-stable and override-correct:
for any two define maps, the merged key list keeps every base key at its
original position and appends the genuinely new keys in order; every key of
either map appears exactly once; and the looked-up value of a key present
in the update is the update's (later) value, while a key absent from the
update keeps the base's value. -/
theorem C5_defines_merge_order_stable {α : Type} (base upd : List (String × α))
    (hb : (keysOf base).Nodup) (hu : (keysOf upd).Nodup) :
    keysOf (dictUpdate base upd) =
      keysOf base ++ (keysOf upd).filter (fun k => decide (k ∉ keysOf base))
    ∧ (keysOf (dictUpdate base upd)).Nodup
    ∧ (∀ k, k ∈ keysOf (dictUpdate base upd) ↔ k ∈ keysOf base ∨ k ∈ keysOf upd)
    ∧ ∀ k, (∀ v, dlookup k upd = some v → dlookup k (dictUpdate base upd) = some v)
         ∧ (dlookup k upd = none → dlookup k (dictUpdate base upd) = dlookup k base) := by
  refine ⟨keysOf_dictUpdate upd base hu, nodup_keysOf_dictUpdate base upd hb hu,
    ?_, dlookup_dictUpdate upd base hu⟩
  intro k
  rw [keysOf_dictUpdate upd base hu]
  simp only [List.mem_append, List.mem_filter, decide_eq_true_eq]
  constructor
  · rintro (hk | ⟨hk, _⟩)
    · exact Or.inl hk
    · exact Or.inr hk
  · rintro (hk | hk)
    · exact Or.inl hk
    · by_cases hkb : k ∈ keysOf base
      · exact Or.inl hkb
      · exact Or.inr ⟨hk, hkb⟩

/-- Witness for C5 at the spec's own example: baseline `A=1, B=2` updated
with `A=3` keeps the ordering `A, B` and yields `A=3`, `B=2`. -/
theorem C5_witness :
    keysOf (dictUpdate [("A", (1 : Nat)), ("B", 2)] [("A", 3)]) =
      keysOf [("A", (1 : Nat)), ("B", 2)] ++
        (keysOf [("A", (3 : Nat))]).filter
          (fun k => decide (k ∉ keysOf [("A", (1 : Nat)), ("B", 2)]))
    ∧ dlookup "A" (dictUpdate [("A", (1 : Nat)), ("B", 2)] [("A", 3)]) = some 3
    ∧ dlookup "B" (dictUpdate [("A", (1 : Nat)), ("B", 2)] [("A", 3)]) = some 2 :=
  ⟨(C5_defines_merge_order_stable [("A", 1), ("B", 2)] [("A", 3)]
      (by decide) (by decide)).1,
   ((C5_defines_merge_order_stable [("A", 1), ("B", 2)] [("A", 3)]
      (by decide) (by decide)).2.2.2 "A").1 3 rfl,
   ((C5_defines_merge_order_stable [("A", 1), ("B", 2)] [("A", 3)]
      (by decide) (by decide)).2.2.2 "B").2 rfl⟩

/-! The orchestration of `main(core)`: open and parse `MiSTeX.yaml`,
construct the platform, add design files and platform commands, merge and
emit the defines, register the extension resources, run `builder.build`,
then call `os.system("quartus_cpf ...")`.  Externals (the YAML file, the
synthesis backend, the conversion tool, and the build directory naming
provided by the `util` helpers) are abstracted into `Ext`. -/

/-- The external collaborators of one `main` invocation.
`manifestDefines = none` models `yaml.load(open(...))` raising — a missing
or malformed manifest; `some defs` is its `defines` map.  `cwd` is
`os.getcwd()`; `buildDir`/`buildName` come from the `util` helpers;
`synthesisOk` is the outcome of `builder.build`; `cpfExit` the exit status
of the `quartus_cpf` conversion call. -/
structure Ext where
  manifestDefines : Option (List (String × Nat))
  cwd             : String
  buildDir        : String
  buildName       : String
  synthesisOk     : Bool
  cpfExit         : Int

/-- Observable state accumulated by one `main` invocation. -/
structure BuildState where
  platformConstructed : Bool
  extensions          : List String
  directives          : List String
  artifacts           : List String
  console             : List Int

/-- Errors that abort the build. -/
inductive BuildError where
  | manifestError
  | synthesisError
deriving DecidableEq

/-- Nothing has happened yet. -/
def initState : BuildState :=
  { platformConstructed := false, extensions := [], directives := []
    artifacts := [], console := [] }

/-- The QIP platform command (line 253 of the script); `cwd` is
`os.getcwd()`. -/
def qipDirective (cwd : String) : String :=
  "set_global_assignment -name QIP_FILE " ++ cwd ++ "/rtl/deca-ddr3/ddr3.qip"

/-- The 29 fixed Quartus `add_platform_command` settings of `main`, in
source order. -/
def quartusSettings : List String :=
  [ "set_global_assignment -name TIMEQUEST_MULTICORNER_ANALYSIS OFF",
    "set_global_assignment -name OPTIMIZE_POWER_DURING_FITTING OFF",
    "set_global_assignment -name FINAL_PLACEMENT_OPTIMIZATION ALWAYS",
    "set_global_assignment -name FITTER_EFFORT \"STANDARD FIT\"",
    "set_global_assignment -name OPTIMIZATION_MODE \"HIGH PERFORMANCE EFFORT\"",
    "set_global_assignment -name ALLOW_POWER_UP_DONT_CARE ON",
    "set_global_assignment -name QII_AUTO_PACKED_REGISTERS \"SPARSE AUTO\"",
    "set_global_assignment -name ROUTER_LCELL_INSERTION_AND_LOGIC_DUPLICATION ON",
    "set_global_assignment -name PHYSICAL_SYNTHESIS_COMBO_LOGIC ON",
    "set_global_assignment -name PHYSICAL_SYNTHESIS_EFFORT EXTRA",
    "set_global_assignment -name PHYSICAL_SYNTHESIS_REGISTER_DUPLICATION ON",
    "set_global_assignment -name PHYSICAL_SYNTHESIS_REGISTER_RETIMING ON",
    "set_global_assignment -name OPTIMIZATION_TECHNIQUE SPEED",
    "set_global_assignment -name MUX_RESTRUCTURE ON",
    "set_global_assignment -name REMOVE_REDUNDANT_LOGIC_CELLS ON",
    "set_global_assignment -name AUTO_DELAY_CHAINS_FOR_HIGH_FANOUT_INPUT_PINS ON",
    "set_global_assignment -name PHYSICAL_SYNTHESIS_COMBO_LOGIC_FOR_AREA ON",
    "set_global_assignment -name ADV_NETLIST_OPT_SYNTH_WYSIWYG_REMAP ON",
    "set_global_assignment -name SYNTH_GATED_CLOCK_CONVERSION ON",
    "set_global_assignment -name PRE_MAPPING_RESYNTHESIS ON",
    "set_global_assignment -name ROUTER_CLOCKING_TOPOLOGY_ANALYSIS ON",
    "set_global_assignment -name ECO_OPTIMIZE_TIMING ON",
    "set_global_assignment -name PERIPHERY_TO_CORE_PLACEMENT_AND_ROUTING_OPTIMIZATION ON",
    "set_global_assignment -name PHYSICAL_SYNTHESIS_ASYNCHRONOUS_SIGNAL_PIPELINING ON",
    "set_global_assignment -name ALM_REGISTER_PACKING_EFFORT LOW",
    "set_global_assignment -name OPTIMIZE_POWER_DURING_SYNTHESIS OFF",
    "set_global_assignment -name ROUTER_REGISTER_DUPLICATION ON",
    "set_global_assignment -name FITTER_AGGRESSIVE_ROUTABILITY_OPTIMIZATION ALWAYS",
    "set_global_assignment -name SEED 1" ]

/-- One `VERILOG_MACRO` platform command per merged define. -/
def macroDirective (kv : String × Nat) : String :=
  "set_global_assignment -name VERILOG_MACRO \"" ++ kv.1 ++ "=" ++
    toString kv.2 ++ "\""

/-- The resource names registered by `platform.add_extension([...])`. -/
def extensionResources : List String :=
  ["hps_i2c", "hps_spi", "hps_control", "sdram_clock", "sdram", "spibone"]

/-- The primary bitstream artifact `{build_dir}/{build_name}.sof`. -/
def sofArtifact (ext : Ext) : String :=
  ext.buildDir ++ "/" ++ ext.buildName ++ ".sof"

/-- The converted artifact `{build_dir}/{build_name}.svf`. -/
def svfArtifact (ext : Ext) : String :=
  ext.buildDir ++ "/" ++ ext.buildName ++ ".svf"

/-- State after the manifest has been parsed successfully: the platform is
constructed, all platform commands (QIP, the fixed Quartus settings, one
macro per merged define) have been added, and the extension resources are
registered.  No artifact exists yet. -/
def setupState (ext : Ext) (defs : List (String × Nat)) : BuildState :=
  { platformConstructed := true
    extensions := extensionResources
    directives := qipDirective ext.cwd :: quartusSettings ++
      (mergedDefines defs).map macroDirective
    artifacts := []
    console := [] }

/-- The call `builder.build(...)`: on success the bitstream artifact appears, on
failure the build aborts with a synthesis error. -/
def synthesize (ext : Ext) (st : BuildState) : BuildState × Option BuildError :=
  if ext.synthesisOk then
    ({ st with artifacts := st.artifacts ++ [sofArtifact ext] }, none)
  else (st, some .synthesisError)

/-- The call `os.system("quartus_cpf -c -q 24.0MHz -g 3.3 -n p ….sof ….svf")`: the
conversion runs with inherited stdout/stderr, so its exit status surfaces
on the caller's console and is otherwise discarded; on success the
converted file appears; previously produced artifacts are untouched either
way. -/
def postProcess (ext : Ext) (st : BuildState) : BuildState :=
  { st with
    artifacts := st.artifacts ++ (if ext.cpfExit = 0 then [svfArtifact ext] else [])
    console := st.console ++ [ext.cpfExit] }

/-- The function `main(core)` in source order: `yaml.load(open(...))` runs before the
platform is constructed, before any extension is registered and before any
directive is emitted; then the build runs; then the conversion call, whose
exit status does not influence the returned result. -/
def runMain (ext : Ext) : BuildState × Option BuildError :=
  match ext.manifestDefines with
  | none => (initState, some .manifestError)
  | some defs =>
      match synthesize ext (setupState ext defs) with
      | (st, none)   => (postProcess ext st, none)
      | (st, some e) => (st, some e)

/-- C7: a missing or malformed manifest fails the build before any state is
populated: the platform is never constructed, no extension is registered,
no directive is emitted, no artifact exists. -/
theorem C7_manifest_error_fails_fast (ext : Ext)
    (h : ext.manifestDefines = none) :
    runMain ext = (initState, some BuildError.manifestError)
    ∧ (runMain ext).1.platformConstructed = false
    ∧ (runMain ext).1.extensions = []
    ∧ (runMain ext).1.directives = []
    ∧ (runMain ext).1.artifacts = [] := by
  have hr : runMain ext = (initState, some BuildError.manifestError) := by
    unfold runMain
    rw [h]
  refine ⟨hr, ?_, ?_, ?_, ?_⟩ <;> rw [hr] <;> rfl

/-- Witness for C7: an invocation whose manifest cannot be loaded. -/
theorem C7_witness :
    runMain ⟨none, "/work", "build", "core", true, 0⟩ =
      (initState, some BuildError.manifestError)
    ∧ (runMain ⟨none, "/work", "build", "core", true, 0⟩).1.platformConstructed = false
    ∧ (runMain ⟨none, "/work", "build", "core", true, 0⟩).1.extensions = []
    ∧ (runMain ⟨none, "/work", "build", "core", true, 0⟩).1.directives = []
    ∧ (runMain ⟨none, "/work", "build", "core", true, 0⟩).1.artifacts = [] :=
  C7_manifest_error_fails_fast ⟨none, "/work", "build", "core", true, 0⟩ rfl

/-- C6: a failing bitstream-format conversion is non-fatal and rolls
nothing back: whatever `quartus_cpf`'s exit status, a successful primary
build returns no error, the primary `.sof` artifact is still present, the
conversion's exit status surfaces on the console, and `postProcess` never
removes an artifact. -/
theorem C6_conversion_failure_nonfatal (ext : Ext) (defs : List (String × Nat))
    (hm : ext.manifestDefines = some defs) (hs : ext.synthesisOk = true) :
    (runMain ext).2 = none
    ∧ sofArtifact ext ∈ (runMain ext).1.artifacts
    ∧ ext.cpfExit ∈ (runMain ext).1.console
    ∧ ∀ st : BuildState, ∀ a ∈ st.artifacts, a ∈ (postProcess ext st).artifacts := by
  have hr : runMain ext =
      (postProcess ext { setupState ext defs with
        artifacts := (setupState ext defs).artifacts ++ [sofArtifact ext] }, none) := by
    unfold runMain
    rw [hm]
    unfold synthesize
    rw [hs]
    simp
  refine ⟨by rw [hr], ?_, ?_, ?_⟩
  · rw [hr]
    simp [postProcess, setupState]
  · rw [hr]
    simp [postProcess, setupState]
  · intro st a ha
    simp [postProcess, ha]

/-- Witness for C6: a build whose conversion call exits with status 1
still succeeds and keeps its `.sof`. -/
theorem C6_witness :
    (runMain ⟨some [], "/work", "build", "core", true, 1⟩).2 = none
    ∧ sofArtifact ⟨some [], "/work", "build", "core", true, 1⟩ ∈
        (runMain ⟨some [], "/work", "build", "core", true, 1⟩).1.artifacts
    ∧ (1 : Int) ∈ (runMain ⟨some [], "/work", "build", "core", true, 1⟩).1.console :=
  ⟨(C6_conversion_failure_nonfatal ⟨some [], "/work", "build", "core", true, 1⟩
      [] rfl rfl).1,
   (C6_conversion_failure_nonfatal ⟨some [], "/work", "build", "core", true, 1⟩
      [] rfl rfl).2.1,
   (C6_conversion_failure_nonfatal ⟨some [], "/work", "build", "core", true, 1⟩
      [] rfl rfl).2.2.1⟩

end MiSTeX
